import Mathlib

/-!
Shallow embedding of the conversation orchestration engine in
`src/backend/main.py` (FastAPI backend of the Shark Tank chat application).

The module-level mutable globals of the source (conversation_history,
current_business_idea, judge_agents, current_judges_config,
entrepreneur_name, judge_collaboration_history) are modelled as an explicit
`AppState` record threaded through the endpoint functions.  The external
crewai text-generation backend (`Crew.kickoff` on a one-agent, one-task
crew) is modelled as a function parameter
`gen : Agent -> String -> Except Exn String` taking the agent and the task
description and returning the generated text or a raised exception.
-/

set_option autoImplicit false

namespace SharkTank

/-- Exceptions raised inside an endpoint body: `HTTPException(status, detail)`
or an arbitrary backend failure (a `GenerationError`) carrying its message,
as observed by the `except Exception as e` handlers via `str(e)`. -/
inductive Exn where
  | http (status : Nat) (detail : String)
  | generation (msg : String)
deriving Repr, DecidableEq

/-- Text of an exception as the source reads it with `str(e)`. -/
def Exn.message : Exn → String
  | .http _ detail => detail
  | .generation m => m

deriving instance DecidableEq for Except

/-- Boolean success test for `Except` results. -/
def exceptOk {ε α : Type} : Except ε α → Bool
  | .ok _ => true
  | .error _ => false

/-- Pydantic model `Message` (src/backend/main.py lines 62-64). -/
structure Message where
  content : String
  sender : String
deriving Repr, DecidableEq

/-- Pydantic model `BusinessIdea` (lines 66-73): seven required `str` fields. -/
structure BusinessIdea where
  name : String
  description : String
  target_market : String
  revenue_model : String
  current_traction : String
  investment_needed : String
  use_of_funds : String
deriving Repr, DecidableEq

/-- Pydantic model `ChatRequest` (lines 75-77); `entrepreneur_name` is
optional with default value, modelled as `Option String` where `none`
stands for an absent or null field. -/
structure ChatRequest where
  business_idea : BusinessIdea
  entrepreneur_name : Option String
deriving Repr, DecidableEq

/-- One entry of the `conversation_history` list: a `Dict[str, str]` whose
keys depend on the speaker.  Entrepreneur/user turns carry `sender_name`,
judge turns carry `judge_name` and `judge_role`; absent keys are `none`. -/
structure Turn where
  role : String
  content : String
  sender_name : Option String := none
  judge_name : Option String := none
  judge_role : Option String := none
deriving Repr, DecidableEq

/-- One entry of the `judge_collaboration_history` global (line 92): the
dict appended at lines 386-389 with keys `judge_name` and `content`. -/
structure CollabEntry where
  judge_name : String
  content : String
deriving Repr, DecidableEq

/-- One entry of `current_judges_config` (lines 501-505): name and role of
a judge, used for attribution during a round. -/
structure JudgeConfig where
  name : String
  role : String
deriving Repr, DecidableEq

/-- One element of the response list built by
`generate_judge_responses_with_collaboration` (lines 377-381). -/
structure JudgeResponse where
  judge_name : String
  judge_role : String
  content : String
deriving Repr, DecidableEq

/-- Pydantic model `ChatResponse` (lines 79-83). -/
structure ChatResponse where
  response : String
  sender : String
  conversation_history : List Turn
  judge_responses : Option (List JudgeResponse)
deriving Repr, DecidableEq

/-- A crewai `Agent` as constructed by the source: role, goal, backstory
plus the two boolean flags.  The attached LLM handle is opaque and carries
no observable behavior, so it is not modelled. -/
structure Agent where
  role : String
  goal : String
  backstory : String
  verbose : Bool
  allow_delegation : Bool
deriving Repr, DecidableEq

/-- Response body of the `/api/conversation-history` endpoint (lines 600-609). -/
structure HistoryResponse where
  conversation_history : List Turn
  business_idea : Option BusinessIdea
  judge_collaboration_history : List CollabEntry
deriving Repr, DecidableEq

/-- The module-level mutable globals of src/backend/main.py lines 85-92,
gathered into one record. -/
structure AppState where
  conversation_history : List Turn
  current_business_idea : Option BusinessIdea
  judge_agents : List Agent
  current_judges_config : List JudgeConfig
  entrepreneur_name : String
  judge_collaboration_history : List CollabEntry
deriving Repr, DecidableEq

/-- The initial values of the globals at process start. -/
def initialState : AppState :=
  { conversation_history := []
    current_business_idea := none
    judge_agents := []
    current_judges_config := []
    entrepreneur_name := ""
    judge_collaboration_history := [] }

/-- One element of the `default_judges` literal inside
`create_default_judge_agents` (lines 105-216). -/
structure DefaultJudgeSpec where
  name : String
  role : String
  goal : String
  backstory : String
deriving Repr, DecidableEq

/-- The `default_judges` list literal (lines 105-216), transcribed with its
canned goal and backstory text. -/
def default_judges : List DefaultJudgeSpec :=
  [ { name := "Sophia"
      role := "Market Judge"
      goal := "
            Evaluate the startup strictly from a market perspective:
            • Customer segmentation
            • Market demand strength
            • Pain point validation
            • Competitive landscape
            • Product differentiation
            • CAC vs LTV feasibility
            • Pricing and distribution strategy
            • Real evidence of market validation

            You can collaborate with other judges by considering their perspectives.

            You must ask a MAXIMUM of 3 market-related questions.

            Rules:
            1. Only ONE question per turn.
            2. Only market-focused questions (no finance, no tech).
            3. Never repeat a question.
            4. After asking 3 total questions → you MUST give a final decision:
               - \"I will invest because...\"
               - \"I\x27m out because...\"
            "
      backstory := "
            You are a Shark Tank Market Judge.
            You are analytical, data-driven, and skeptical about exaggerated claims.
            Your expertise includes:
            • market analysis
            • competitive research
            • customer psychology
            • go-to-market strategy
            • growth patterns and validation signals

            Your style:
            • Direct but professional
            • Always challenging assumptions
            • Demand evidence, not buzzwords
            • Drill into gaps in logic or weak positioning
            • You collaborate with other judges and consider their perspectives

            Behavioral Rules:
            • Ask 1 question per message.
            • Only market questions.
            • No repetitive questions.
            • Stop after 3 questions and deliver a final verdict.
            " }
  , { name := "Marcus"
      role := "Finance Judge"
      goal := "
            Evaluate the business from a financial and economic feasibility perspective:
            • Revenue model clarity
            • Unit economics (CAC, LTV, margins)
            • Cash flow sustainability
            • Pricing logic
            • Break-even point
            • Burn rate realism
            • Scalability of the economics
            • Opportunity cost of investment

            You can collaborate with other judges by considering their perspectives.

            Rules:
            1. Ask ONLY financial questions.
            2. One question per turn.
            3. Be extremely strict with numbers and assumptions.
            4. After 3–4 questions → MUST make a final investment decision.
            "
      backstory := "
            You are Marcus, a former Wall Street private equity analyst and fractional CFO.
            You excel at tearing down unrealistic financial projections and exposing hidden risks.
            You speak with surgical financial precision, challenge every number, and tolerate no fluff.
            You collaborate with other judges and consider their perspectives when making decisions.
            " }
  , { name := "Elena"
      role := "Technology Judge"
      goal := "
            Evaluate the startup from a technology feasibility and scalability viewpoint:

            Focus areas:
            • Architecture design
            • Codebase scalability
            • Security risks and vulnerabilities
            • Algorithmic logic and complexity
            • Tech stack suitability
            • Data handling and compliance
            • Infrastructure costs vs growth
            • Real innovation vs buzzwords

            You can collaborate with other judges by considering their perspectives.

            Rules:
            1. Ask ONE technical question per message.
            2. No general business or financial questions.
            3. Push the entrepreneur to explain architecture clearly, no vague claims.
            4. After 3-4 total questions → mandatory technical verdict (IN or OUT).
            "
      backstory := "
            You are Elena, a senior CTO with 20 years designing scalable distributed systems.
            You are highly technical, allergic to vague buzzwords, and hyper-focused on clarity.
            You quickly spot unrealistic architecture, weak engineering planning, or security flaws.
            You collaborate with other judges and consider their perspectives when making decisions.
            " } ]

/-- `create_default_judge_agents` (lines 97-233): builds one `Agent` per
entry of `default_judges`, in list order, with `verbose=True` and
`allow_delegation=False`.  The `name` key is not part of the `Agent`. -/
def create_default_judge_agents : List Agent :=
  default_judges.map fun judge =>
    { role := judge.role
      goal := judge.goal
      backstory := judge.backstory
      verbose := true
      allow_delegation := false }

/-- `create_entrepreneur_agent` (lines 235-266). -/
def create_entrepreneur_agent : Agent :=
  { role := "Entrepreneur"
    goal := "
Pitch your startup clearly, defend your business model, and answer judge questions
with persuasive, logical, and data-backed reasoning. Your mission is to secure investment.
"
    backstory := "
You are an articulate, ambitious, well-prepared founder presenting your startup
in a Shark Tank environment. You deeply understand your:
• Market
• Customer
• Product
• Traction
• Competition
• Revenue strategy
• Long-term vision

You communicate with confidence, clarity, and structure.
You NEVER ramble, NEVER contradict yourself, and ALWAYS support claims with logic/data.
If a judge challenges you, respond professionally, strategically, and convincingly.
"
    verbose := false
    allow_delegation := false }

/-- The task description f-string of `generate_initial_pitch` (lines
279-296), with each interpolation replaced by explicit concatenation. -/
def pitchTaskDescription (business_idea : BusinessIdea) (entrepreneur_name : String) : String :=
  "Create a compelling initial pitch for your business idea.\n\n        Your name is "
    ++ entrepreneur_name
    ++ ".\n\n        Your business idea:\n        Name: " ++ business_idea.name
    ++ "\n        Description: " ++ business_idea.description
    ++ "\n        Target Market: " ++ business_idea.target_market
    ++ "\n        Revenue Model: " ++ business_idea.revenue_model
    ++ "\n        Current Traction: " ++ business_idea.current_traction
    ++ "\n        Investment Needed: " ++ business_idea.investment_needed
    ++ "\n        Use of Funds: " ++ business_idea.use_of_funds
    ++ "\n\n        Start your pitch by greeting the judges: \"Hello Sharks, I\x27m "
    ++ entrepreneur_name
    ++ "...\"\n        \n        Be enthusiastic and concise. Highlight the problem you\x27re solving, your solution,\n        market opportunity, and why your team is uniquely positioned to succeed.\n        End with a clear ask for the investment amount and equity offer."

/-- `generate_initial_pitch` (lines 271-307): builds the entrepreneur agent
and hands the rendered task description to the generation backend. -/
def generate_initial_pitch (gen : Agent → String → Except Exn String)
    (business_idea : BusinessIdea) (entrepreneur_name : String) : Except Exn String :=
  gen create_entrepreneur_agent (pitchTaskDescription business_idea entrepreneur_name)

/-- The serialized conversation context (line 322):
`"\n".join(f"(role): (content)" for msg in conversation)`. -/
def renderConversation (conversation : List Turn) : String :=
  String.intercalate "\n" (conversation.map fun msg => msg.role ++ ": " ++ msg.content)

/-- One line of the collaboration context (lines 329-331): the judge name
and the first 200 characters of its recorded content. -/
def renderCollabEntry (judge_msg : CollabEntry) : String :=
  "- " ++ judge_msg.judge_name ++ ": " ++ judge_msg.content.take 200 ++ "...\n"

/-- The slice `judge_collaboration_history[-6:]` (line 328): the most
recent 6 entries, or the whole list when it is shorter. -/
def lastSix (judge_collaboration_history : List CollabEntry) : List CollabEntry :=
  judge_collaboration_history.drop (judge_collaboration_history.length - 6)

/-- The collaboration context built at lines 325-331, before the judge
loop: empty when the history is empty, otherwise a header followed by one
line per entry of the last-6 slice. -/
def renderCollaborationContext (judge_collaboration_history : List CollabEntry) : String :=
  if judge_collaboration_history.isEmpty then ""
  else
    "\n\nOther Judges\x27 Recent Perspectives:\n"
      ++ String.join ((lastSix judge_collaboration_history).map renderCollabEntry)

/-- The judge name used for attribution (line 335):
`current_judges_config[idx]["name"]` when the index is in range, else
`f"Judge (idx+1)"`. -/
def judgeNameAt (current_judges_config : List JudgeConfig) (idx : Nat) : String :=
  match current_judges_config.get? idx with
  | some c => c.name
  | none => "Judge " ++ toString (idx + 1)

/-- The judge role used for attribution (line 336):
`current_judges_config[idx]["role"]` when the index is in range, else the
role of the agent itself. -/
def judgeRoleAt (current_judges_config : List JudgeConfig) (idx : Nat) (judge_agent : Agent) : String :=
  match current_judges_config.get? idx with
  | some c => c.role
  | none => judge_agent.role

/-- The task description f-string of the judge loop (lines 339-365), with
each interpolation replaced by explicit concatenation.  `context` and
`collaboration_context` are the values computed before the loop. -/
def judgeTaskDescription (judge_name judge_role : String) (b : BusinessIdea)
    (context collaboration_context : String) : String :=
  "You are " ++ judge_name ++ ", the " ++ judge_role
    ++ ". Evaluate the entrepreneur\x27s pitch and respond appropriately.\n\n            Business being evaluated:\n            Name: "
    ++ b.name
    ++ "\n            Description: " ++ b.description
    ++ "\n            Target Market: " ++ b.target_market
    ++ "\n            Revenue Model: " ++ b.revenue_model
    ++ "\n            Current Traction: " ++ b.current_traction
    ++ "\n            Investment Needed: " ++ b.investment_needed
    ++ "\n            Use of Funds: " ++ b.use_of_funds
    ++ "\n\n            Conversation history:\n            " ++ context
    ++ "\n            \n            " ++ collaboration_context
    ++ "\n\n            IMPORTANT COLLABORATION INSTRUCTIONS:\n            - Consider the perspectives of other judges mentioned above\n            - You can reference or build upon their questions/concerns\n            - If another judge has raised a valid point, you can acknowledge it\n            - However, maintain your own unique perspective and expertise\n\n            Respond with your thoughts, questions or investment decision. Be critical but constructive.\n            If you need more information, ask specific questions. If you have enough information,\n            make your final investment decision.\n            \n            IMPORTANT: Start your response with \""
    ++ judge_name ++ ": \" to identify yourself clearly."

/-- The `for idx, judge_agent in enumerate(judge_agents)` loop of lines
334-389.  Accumulators: `responses` (the list returned on success),
`collab` (the mutable global `judge_collaboration_history`, appended to
after each successful generation, mutation that survives a mid-round
failure) and `prompts` (instrumentation recording each task description
handed to the backend, in invocation order; the source discards the task
object after each kickoff).  `context` and `collaboration_context` are
fixed for the whole round, having been computed before the loop. -/
def judgeRoundLoop (gen : Agent → String → Except Exn String)
    (business_idea : BusinessIdea) (context collaboration_context : String)
    (current_judges_config : List JudgeConfig) :
    List Agent → Nat → List JudgeResponse → List CollabEntry → List String →
    List CollabEntry × List String × Except Exn (List JudgeResponse)
  | [], _, responses, collab, prompts => (collab, prompts, .ok responses)
  | judge_agent :: rest, idx, responses, collab, prompts =>
    let judge_name := judgeNameAt current_judges_config idx
    let judge_role := judgeRoleAt current_judges_config idx judge_agent
    let description :=
      judgeTaskDescription judge_name judge_role business_idea context collaboration_context
    match gen judge_agent description with
    | .error e => (collab, prompts ++ [description], .error e)
    | .ok raw =>
      judgeRoundLoop gen business_idea context collaboration_context current_judges_config
        rest (idx + 1)
        (responses ++ [{ judge_name := judge_name, judge_role := judge_role, content := raw }])
        (collab ++ [{ judge_name := judge_name, content := raw }])
        (prompts ++ [description])

/-- `generate_judge_responses_with_collaboration` (lines 309-391).  Raises
`HTTPException(400)` when no judges are configured; otherwise computes the
conversation context and the collaboration context once, then runs the
sequential per-judge loop.  Returns the final collaboration history (the
mutated global, final in every outcome), the task descriptions issued, and
the response list or the propagated exception. -/
def generate_judge_responses_with_collaboration (gen : Agent → String → Except Exn String)
    (business_idea : BusinessIdea) (conversation : List Turn)
    (judge_agents : List Agent) (current_judges_config : List JudgeConfig)
    (judge_collaboration_history : List CollabEntry) :
    List CollabEntry × List String × Except Exn (List JudgeResponse) :=
  if judge_agents.isEmpty then
    (judge_collaboration_history, [], .error (.http 400 "No judges configured"))
  else
    let context := renderConversation conversation
    let collaboration_context := renderCollaborationContext judge_collaboration_history
    judgeRoundLoop gen business_idea context collaboration_context current_judges_config
      judge_agents 0 [] judge_collaboration_history []

/-- The entrepreneur name resolution at line 495:
`request.entrepreneur_name or "Entrepreneur"` — Python `or` also replaces
the empty string by the default. -/
def resolveEntrepreneurName (request : ChatRequest) : String :=
  match request.entrepreneur_name with
  | none => "Entrepreneur"
  | some s => if s = "" then "Entrepreneur" else s

/-- The `current_judges_config` literal installed at lines 501-505. -/
def defaultJudgesConfig : List JudgeConfig :=
  [ { name := "Sophia", role := "Market Judge" }
  , { name := "Marcus", role := "Finance Judge" }
  , { name := "Elena", role := "Technology Judge" } ]

/-- Turn record built from one judge response when it is appended to the
conversation history (lines 526-531 and 576-582). -/
def judgeTurn (r : JudgeResponse) : Turn :=
  { role := "Judge"
    content := r.content
    judge_name := some r.judge_name
    judge_role := some r.judge_role }

/-- `start_pitch` (lines 482-547).  The handler first resets the
conversation state and installs the new business idea, entrepreneur name,
judge agents and judge config; only then does it call the generation
backend for the pitch and for the judge round.  Any exception raised inside
the `try` block is re-raised as `HTTPException(500, ...)` while every
global mutation made so far — including collaboration-history appends made
inside a partially completed judge round — stays in place. -/
def start_pitch (gen : Agent → String → Except Exn String)
    (request : ChatRequest) (_st : AppState) : AppState × Except Exn ChatResponse :=
  let st1 : AppState :=
    { conversation_history := []
      judge_collaboration_history := []
      current_business_idea := some request.business_idea
      entrepreneur_name := resolveEntrepreneurName request
      judge_agents := create_default_judge_agents
      current_judges_config := defaultJudgesConfig }
  match generate_initial_pitch gen request.business_idea st1.entrepreneur_name with
  | .error e => (st1, .error (.http 500 ("Error starting pitch: " ++ e.message)))
  | .ok initial_pitch =>
    let st2 : AppState :=
      { st1 with
        conversation_history :=
          st1.conversation_history
            ++ [{ role := "Entrepreneur", content := initial_pitch
                  sender_name := some st1.entrepreneur_name }] }
    let roundResult :=
      generate_judge_responses_with_collaboration gen request.business_idea
        st2.conversation_history st2.judge_agents st2.current_judges_config
        st2.judge_collaboration_history
    let st3 : AppState := { st2 with judge_collaboration_history := roundResult.1 }
    match roundResult.2.2 with
    | .error e => (st3, .error (.http 500 ("Error starting pitch: " ++ e.message)))
    | .ok judge_responses =>
      let st4 : AppState :=
        { st3 with
          conversation_history :=
            st3.conversation_history ++ judge_responses.map judgeTurn }
      (st4, .ok
        { response := "Responses from " ++ toString judge_responses.length ++ " judge(s)"
          sender := "Judge"
          conversation_history := st4.conversation_history
          judge_responses := some judge_responses })

/-- `send_message` (lines 549-598).  Outside the `try` block the handler
checks `if not current_business_idea` and raises `HTTPException(400)` with
no state change.  Otherwise it appends the incoming message verbatim (role
taken from `message.sender`, `sender_name` always the stored entrepreneur
name), runs one judge round, and appends the judge turns only after the
whole round has succeeded; a failed round is re-raised as
`HTTPException(500, ...)` with the user turn and the collaboration-history
appends left in place. -/
def send_message (gen : Agent → String → Except Exn String)
    (message : Message) (st : AppState) : AppState × Except Exn ChatResponse :=
  match st.current_business_idea with
  | none =>
    (st, .error (.http 400 "No active pitch session. Please start a pitch first."))
  | some current_idea =>
    let st1 : AppState :=
      { st with
        conversation_history :=
          st.conversation_history
            ++ [{ role := message.sender, content := message.content
                  sender_name := some st.entrepreneur_name }] }
    let roundResult :=
      generate_judge_responses_with_collaboration gen current_idea
        st1.conversation_history st1.judge_agents st1.current_judges_config
        st1.judge_collaboration_history
    let st2 : AppState := { st1 with judge_collaboration_history := roundResult.1 }
    match roundResult.2.2 with
    | .error e => (st2, .error (.http 500 ("Error sending message: " ++ e.message)))
    | .ok judge_responses =>
      let st3 : AppState :=
        { st2 with
          conversation_history :=
            st2.conversation_history ++ judge_responses.map judgeTurn }
      (st3, .ok
        { response := "Responses from " ++ toString judge_responses.length ++ " judge(s)"
          sender := "Judge"
          conversation_history := st3.conversation_history
          judge_responses := some judge_responses })

/-- `get_conversation_history` (lines 600-609): read-only snapshot. -/
def get_conversation_history (st : AppState) : HistoryResponse :=
  { conversation_history := st.conversation_history
    business_idea := st.current_business_idea
    judge_collaboration_history := st.judge_collaboration_history }

/-- Response body of `/api/reset` (line 623). -/
structure ResetResponse where
  status : String
  message : String
deriving Repr, DecidableEq

/-- `reset_conversation` (lines 611-623): clears every global. -/
def reset_conversation (_st : AppState) : AppState × ResetResponse :=
  ({ conversation_history := []
     judge_collaboration_history := []
     current_business_idea := none
     judge_agents := []
     current_judges_config := []
     entrepreneur_name := "" }
  , { status := "success", message := "Conversation reset" })

/-- Response body of `/api/judges` (lines 625-631). -/
structure JudgesResponse where
  judges : List JudgeConfig
  count : Nat
deriving Repr, DecidableEq

/-- `get_judges` (lines 625-631): read-only introspection. -/
def get_judges (st : AppState) : JudgesResponse :=
  { judges := st.current_judges_config, count := st.current_judges_config.length }

/-- Raw request payload for the `business_idea` object: each of the seven
fields of the pydantic `BusinessIdea` model may be present or absent. -/
structure RawBusinessIdea where
  name : Option String
  description : Option String
  target_market : Option String
  revenue_model : Option String
  current_traction : Option String
  investment_needed : Option String
  use_of_funds : Option String
deriving Repr, DecidableEq

/-- Pydantic validation of the `BusinessIdea` declaration (lines 66-73), as
FastAPI applies it before the `start_pitch` body runs: every field is a
required `str`, so a missing field is rejected with a 422 validation
error, while any present string value — the empty string included — is
accepted unchanged.  The class declares no further validators. -/
def validateBusinessIdea (raw : RawBusinessIdea) : Except Exn BusinessIdea :=
  match raw.name, raw.description, raw.target_market, raw.revenue_model,
      raw.current_traction, raw.investment_needed, raw.use_of_funds with
  | some n, some d, some t, some r, some c, some i, some u =>
    .ok { name := n, description := d, target_market := t, revenue_model := r
          current_traction := c, investment_needed := i, use_of_funds := u }
  | _, _, _, _, _, _, _ => .error (.http 422 "field required")

/-- The `/api/start-pitch` route as seen by a client: FastAPI validates the
request body against the pydantic models before the handler body runs, so
a validation failure leaves the application state untouched. -/
def start_pitch_endpoint (gen : Agent → String → Except Exn String)
    (raw : RawBusinessIdea) (raw_name : Option String) (st : AppState) :
    AppState × Except Exn ChatResponse :=
  match validateBusinessIdea raw with
  | .error e => (st, .error e)
  | .ok idea => start_pitch gen { business_idea := idea, entrepreneur_name := raw_name } st

/-! ### Derived specification functions and concrete fixtures -/

/-- Closed form of the task descriptions a judge round issues: one
description per agent, in panel order, every one rendered from the same
`context` and `collaboration_context` values.  Proven below to coincide
with the descriptions the loop actually hands to the backend. -/
def roundDescriptions (business_idea : BusinessIdea) (context collaboration_context : String)
    (config : List JudgeConfig) : List Agent → Nat → List String
  | [], _ => []
  | judge_agent :: rest, idx =>
    judgeTaskDescription (judgeNameAt config idx) (judgeRoleAt config idx judge_agent)
        business_idea context collaboration_context
      :: roundDescriptions business_idea context collaboration_context config rest (idx + 1)

/-- Closed form of the (name, role) attribution sequence of a judge round,
in invocation order. -/
def roundAttribution (config : List JudgeConfig) : List Agent → Nat → List (String × String)
  | [], _ => []
  | judge_agent :: rest, idx =>
    (judgeNameAt config idx, judgeRoleAt config idx judge_agent)
      :: roundAttribution config rest (idx + 1)

/-- Boolean test: the first list is an initial segment of the second. -/
def charListStartsWith : List Char → List Char → Bool
  | [], _ => true
  | _ :: _, [] => false
  | a :: as, b :: bs => a == b && charListStartsWith as bs

/-- Boolean test: `pat` occurs as a contiguous run somewhere in the list. -/
def charListHasSub (pat : List Char) : List Char → Bool
  | [] => charListStartsWith pat []
  | c :: cs => charListStartsWith pat (c :: cs) || charListHasSub pat cs

/-- Boolean substring test: `pat` occurs contiguously inside `s`. -/
def strHasSub (s pat : String) : Bool :=
  charListHasSub pat.toList s.toList

/-- A generation backend that never fails. -/
def OkGen (gen : Agent → String → Except Exn String) : Prop :=
  ∀ a p, exceptOk (gen a p) = true

/-- Backend returning the same text for every call. -/
def constGen (text : String) : Agent → String → Except Exn String :=
  fun _ _ => .ok text

/-- Backend failing on every call. -/
def failGen : Agent → String → Except Exn String :=
  fun _ _ => .error (.generation "backend down")

/-- Concrete business idea from the specification scenario. -/
def demoIdea : BusinessIdea :=
  { name := "Acme", description := "Widgets", target_market := "SMB"
    revenue_model := "subscription", current_traction := "10k MRR"
    investment_needed := "500k", use_of_funds := "hiring" }

/-- Concrete start-pitch request. -/
def demoRequest : ChatRequest :=
  { business_idea := demoIdea, entrepreneur_name := some "Jane" }

/-- Concrete follow-up message. -/
def demoMessage : Message :=
  { content := "We have 3 LOIs signed", sender := "Entrepreneur" }

/-- State after a fully successful `start_pitch` on the demo request. -/
def demoState1 : AppState := (start_pitch (constGen "pitch") demoRequest initialState).1

/-- State after one further fully successful `send_message`. -/
def demoState2 : AppState := (send_message (constGen "x") demoMessage demoState1).1

/-- State after a second further fully successful `send_message`. -/
def demoState3 : AppState := (send_message (constGen "y") demoMessage demoState2).1

/-- Backend whose Market Judge output is the marker string and whose other
outputs are inert, used to trace one judge output through a round. -/
def markerGen : Agent → String → Except Exn String :=
  fun agent _ =>
    if agent.role = "Market Judge" then .ok "ZQMARKER" else .ok "other"

/-- One judge round over the default panel with the marker backend, an
empty conversation and an empty collaboration history. -/
def markerRun : List CollabEntry × List String × Except Exn (List JudgeResponse) :=
  generate_judge_responses_with_collaboration markerGen demoIdea []
    create_default_judge_agents defaultJudgesConfig []

/-- Backend that succeeds for the Market Judge with a marker output and
fails for the Finance Judge, cutting a round short after one success. -/
def failFinanceGen : Agent → String → Except Exn String :=
  fun agent _ =>
    if agent.role = "Finance Judge" then .error (.generation "backend failure")
    else .ok "SOPHIAOUT"

/-- A `send_message` on the demo session whose judge round fails at the
second judge. -/
def failFinanceRun : AppState × Except Exn ChatResponse :=
  send_message failFinanceGen demoMessage demoState1

/-- Raw request whose seven business-idea fields are all present but empty. -/
def rawEmptyFields : RawBusinessIdea :=
  { name := some "", description := some "", target_market := some ""
    revenue_model := some "", current_traction := some ""
    investment_needed := some "", use_of_funds := some "" }

/-- Raw request missing every business-idea field. -/
def rawMissingFields : RawBusinessIdea :=
  { name := none, description := none, target_market := none
    revenue_model := none, current_traction := none
    investment_needed := none, use_of_funds := none }

/-- The start-pitch route invoked with all-empty business-idea fields. -/
def emptyFieldsRun : AppState × Except Exn ChatResponse :=
  start_pitch_endpoint (constGen "x") rawEmptyFields (some "Jane") initialState

/-! ### Helper lemmas -/

theorem exceptOk_exists_ok {ε α : Type} {x : Except ε α} (h : exceptOk x = true) :
    ∃ a, x = .ok a := by
  cases x with
  | error e => simp [exceptOk] at h
  | ok a => exact ⟨a, rfl⟩

theorem judgeRoundLoop_collab_extends (gen : Agent → String → Except Exn String)
    (b : BusinessIdea) (ctx cctx : String) (config : List JudgeConfig) :
    ∀ (agents : List Agent) (idx : Nat) (responses : List JudgeResponse)
      (collab : List CollabEntry) (prompts : List String),
      ∃ tail, (judgeRoundLoop gen b ctx cctx config agents idx responses collab prompts).1
        = collab ++ tail := by
  intro agents
  induction agents with
  | nil =>
    intro idx responses collab prompts
    exact ⟨[], by simp [judgeRoundLoop]⟩
  | cons a rest ih =>
    intro idx responses collab prompts
    simp only [judgeRoundLoop]
    cases hg : gen a (judgeTaskDescription (judgeNameAt config idx)
        (judgeRoleAt config idx a) b ctx cctx) with
    | error e => exact ⟨[], by simp⟩
    | ok raw =>
      obtain ⟨tail, htail⟩ := ih (idx + 1)
        (responses ++ [⟨judgeNameAt config idx, judgeRoleAt config idx a, raw⟩])
        (collab ++ [⟨judgeNameAt config idx, raw⟩])
        (prompts ++ [judgeTaskDescription (judgeNameAt config idx)
          (judgeRoleAt config idx a) b ctx cctx])
      exact ⟨⟨judgeNameAt config idx, raw⟩ :: tail, by rw [htail]; simp⟩

theorem judgeRoundLoop_ok_spec (gen : Agent → String → Except Exn String)
    (b : BusinessIdea) (ctx cctx : String) (config : List JudgeConfig) :
    ∀ (agents : List Agent) (idx : Nat) (respAcc : List JudgeResponse)
      (collabAcc : List CollabEntry) (promptsAcc : List String)
      (collabOut : List CollabEntry) (promptsOut : List String) (resp : List JudgeResponse),
      judgeRoundLoop gen b ctx cctx config agents idx respAcc collabAcc promptsAcc
          = (collabOut, promptsOut, .ok resp) →
      ∃ newResp : List JudgeResponse,
        resp = respAcc ++ newResp
          ∧ collabOut = collabAcc ++ newResp.map (fun r => (⟨r.judge_name, r.content⟩ : CollabEntry))
          ∧ promptsOut = promptsAcc ++ roundDescriptions b ctx cctx config agents idx
          ∧ newResp.length = agents.length
          ∧ newResp.map (fun r => (r.judge_name, r.judge_role)) = roundAttribution config agents idx := by
  intro agents
  induction agents with
  | nil =>
    intro idx respAcc collabAcc promptsAcc collabOut promptsOut resp h
    simp only [judgeRoundLoop, Prod.mk.injEq, Except.ok.injEq] at h
    obtain ⟨h1, h2, h3⟩ := h
    exact ⟨[], by simp [h1, h2, h3, roundDescriptions, roundAttribution]⟩
  | cons a rest ih =>
    intro idx respAcc collabAcc promptsAcc collabOut promptsOut resp h
    simp only [judgeRoundLoop] at h
    cases hg : gen a (judgeTaskDescription (judgeNameAt config idx)
        (judgeRoleAt config idx a) b ctx cctx) with
    | error e => rw [hg] at h; simp at h
    | ok raw =>
      rw [hg] at h
      obtain ⟨newResp, h1, h2, h3, h4, h5⟩ := ih (idx + 1) _ _ _ _ _ _ h
      refine ⟨⟨judgeNameAt config idx, judgeRoleAt config idx a, raw⟩ :: newResp,
        ?_, ?_, ?_, ?_, ?_⟩
      · simp [h1]
      · simp [h2]
      · simp [h3, roundDescriptions]
      · simp [h4]
      · simp [h5, roundAttribution]

theorem judgeRoundLoop_okGen (gen : Agent → String → Except Exn String)
    (hgen : OkGen gen) (b : BusinessIdea) (ctx cctx : String) (config : List JudgeConfig) :
    ∀ (agents : List Agent) (idx : Nat) (respAcc : List JudgeResponse)
      (collabAcc : List CollabEntry) (promptsAcc : List String),
      exceptOk (judgeRoundLoop gen b ctx cctx config agents idx respAcc collabAcc promptsAcc).2.2
        = true := by
  intro agents
  induction agents with
  | nil =>
    intro idx respAcc collabAcc promptsAcc
    simp [judgeRoundLoop, exceptOk]
  | cons a rest ih =>
    intro idx respAcc collabAcc promptsAcc
    simp only [judgeRoundLoop]
    cases hg : gen a (judgeTaskDescription (judgeNameAt config idx)
        (judgeRoleAt config idx a) b ctx cctx) with
    | error e =>
      have hcontra := hgen a (judgeTaskDescription (judgeNameAt config idx)
        (judgeRoleAt config idx a) b ctx cctx)
      rw [hg] at hcontra
      simp [exceptOk] at hcontra
    | ok raw => exact ih (idx + 1) _ _ _

theorem round_ok_spec (gen : Agent → String → Except Exn String)
    (b : BusinessIdea) (conv : List Turn) (agents : List Agent)
    (config : List JudgeConfig) (hist : List CollabEntry) (resp : List JudgeResponse)
    (h : (generate_judge_responses_with_collaboration gen b conv agents config hist).2.2
      = .ok resp) :
    (generate_judge_responses_with_collaboration gen b conv agents config hist).2.1
        = roundDescriptions b (renderConversation conv) (renderCollaborationContext hist)
            config agents 0
      ∧ (generate_judge_responses_with_collaboration gen b conv agents config hist).1
        = hist ++ resp.map (fun r => (⟨r.judge_name, r.content⟩ : CollabEntry))
      ∧ resp.length = agents.length
      ∧ resp.map (fun r => (r.judge_name, r.judge_role)) = roundAttribution config agents 0 := by
  unfold generate_judge_responses_with_collaboration at h ⊢
  cases hA : agents.isEmpty with
  | true => rw [hA] at h; simp at h
  | false =>
    rw [hA] at h
    simp only [Bool.false_eq_true, if_false] at h ⊢
    rcases hE : judgeRoundLoop gen b (renderConversation conv)
        (renderCollaborationContext hist) config agents 0 [] hist [] with ⟨collabOut, promptsOut, r⟩
    rw [hE] at h
    simp only at h
    subst h
    obtain ⟨newResp, h1, h2, h3, h4, h5⟩ :=
      judgeRoundLoop_ok_spec gen b (renderConversation conv)
        (renderCollaborationContext hist) config agents 0 [] hist [] collabOut promptsOut resp hE
    simp only [List.nil_append] at h1 h3
    subst h1
    exact ⟨h3, h2, h4, h5⟩

theorem round_collab_extends (gen : Agent → String → Except Exn String)
    (b : BusinessIdea) (conv : List Turn) (agents : List Agent)
    (config : List JudgeConfig) (hist : List CollabEntry) :
    ∃ tail, (generate_judge_responses_with_collaboration gen b conv agents config hist).1
      = hist ++ tail := by
  unfold generate_judge_responses_with_collaboration
  cases hA : agents.isEmpty with
  | true => exact ⟨[], by simp⟩
  | false =>
    simp only [Bool.false_eq_true, if_false]
    exact judgeRoundLoop_collab_extends gen b (renderConversation conv)
      (renderCollaborationContext hist) config agents 0 [] hist []

theorem round_okGen (gen : Agent → String → Except Exn String) (hgen : OkGen gen)
    (b : BusinessIdea) (conv : List Turn) (agents : List Agent)
    (config : List JudgeConfig) (hist : List CollabEntry)
    (hA : agents.isEmpty = false) :
    exceptOk (generate_judge_responses_with_collaboration gen b conv agents config hist).2.2
      = true := by
  unfold generate_judge_responses_with_collaboration
  rw [hA]
  simp only [Bool.false_eq_true, if_false]
  exact judgeRoundLoop_okGen gen hgen b (renderConversation conv)
    (renderCollaborationContext hist) config agents 0 [] hist []

theorem roundAttribution_eq_config (config : List JudgeConfig) :
    ∀ (agents : List Agent) (idx : Nat), config.length = idx + agents.length →
      roundAttribution config agents idx = (config.drop idx).map (fun c => (c.name, c.role)) := by
  intro agents
  induction agents with
  | nil =>
    intro idx h
    simp only [List.length_nil, Nat.add_zero] at h
    rw [roundAttribution, ← h, List.drop_length, List.map_nil]
  | cons a rest ih =>
    intro idx h
    have hlen : config.length = idx + rest.length + 1 := by
      simp only [List.length_cons] at h
      omega
    have hlt : idx < config.length := by omega
    have hget : config[idx]? = some config[idx] := List.getElem?_eq_getElem hlt
    rw [roundAttribution, List.drop_eq_getElem_cons hlt, List.map_cons]
    congr 1
    · simp [judgeNameAt, judgeRoleAt, List.get?_eq_getElem?, hget]
    · exact ih (idx + 1) (by omega)

theorem lastSix_length_le (hist : List CollabEntry) : (lastSix hist).length ≤ 6 := by
  unfold lastSix
  rw [List.length_drop]
  omega

theorem lastSix_lastSix (hist : List CollabEntry) : lastSix (lastSix hist) = lastSix hist := by
  unfold lastSix
  rw [List.length_drop]
  have h0 : hist.length - (hist.length - 6) - 6 = 0 := by omega
  rw [h0, List.drop_zero]

theorem lastSix_isEmpty (hist : List CollabEntry) : (lastSix hist).isEmpty = hist.isEmpty := by
  cases hist with
  | nil => rfl
  | cons a t =>
    have h1 : (lastSix (a :: t)).length ≠ 0 := by
      unfold lastSix
      rw [List.length_drop]
      simp only [List.length_cons]
      omega
    cases hL : lastSix (a :: t) with
    | nil => rw [hL] at h1; simp at h1
    | cons b u => simp [List.isEmpty_cons]

theorem renderCollaborationContext_lastSix (hist : List CollabEntry) :
    renderCollaborationContext (lastSix hist) = renderCollaborationContext hist := by
  unfold renderCollaborationContext
  rw [lastSix_isEmpty, lastSix_lastSix]

/-! ### Claim theorems -/

/-- C6: for every sender and content, calling sendMessage while no session
is active (no current business idea) fails with the no-active-session
error — `HTTPException(400, "No active pitch session. Please start a pitch
first.")` — and performs no state change: the state, transcript included,
is returned untouched. -/
theorem C6_no_active_session (gen : Agent → String → Except Exn String)
    (message : Message) (st : AppState) (h : st.current_business_idea = none) :
    send_message gen message st
      = (st, .error (.http 400 "No active pitch session. Please start a pitch first.")) := by
  unfold send_message
  rw [h]

/-- Witness for C6 at the initial (idle) state. -/
theorem C6_witness :
    initialState.current_business_idea = none
      ∧ send_message (constGen "x") demoMessage initialState
        = (initialState,
           .error (.http 400 "No active pitch session. Please start a pitch first.")) :=
  ⟨rfl, C6_no_active_session (constGen "x") demoMessage initialState rfl⟩

/-- C7: reset is idempotent — calling it twice in a row yields the same
empty state both times — and the conversation-history snapshot taken after
a reset has an empty transcript, a null business idea and an empty
collaboration history. -/
theorem C7_reset_idempotent :
    (∀ st : AppState,
        reset_conversation (reset_conversation st).1 = reset_conversation st)
      ∧ (∀ st : AppState, get_conversation_history (reset_conversation st).1
          = { conversation_history := []
              business_idea := none
              judge_collaboration_history := [] }) :=
  ⟨fun _ => rfl, fun _ => rfl⟩

/-- C10: sendMessage does not validate the sender role: for every string
`sender`, the incoming turn is appended with `role` equal to that string
verbatim and `sender_name` equal to the stored entrepreneur name, whatever
the sender value. -/
theorem C10_sender_verbatim (gen : Agent → String → Except Exn String)
    (st : AppState) (idea : BusinessIdea) (sender content : String)
    (h : st.current_business_idea = some idea) :
    ∃ rest, (send_message gen { content := content, sender := sender } st).1.conversation_history
      = st.conversation_history
        ++ ({ role := sender, content := content
              sender_name := some st.entrepreneur_name } : Turn) :: rest := by
  unfold send_message
  rw [h]
  simp only []
  split
  · exact ⟨[], by simp⟩
  next resp heq => exact ⟨resp.map judgeTurn, by simp⟩

/-- Witness for C10 with an arbitrary sender string. -/
theorem C10_witness :
    demoState1.current_business_idea = some demoIdea
      ∧ ∃ rest,
        (send_message (constGen "x")
            { content := "hello", sender := "Banana" } demoState1).1.conversation_history
          = demoState1.conversation_history
            ++ ({ role := "Banana", content := "hello"
                  sender_name := some demoState1.entrepreneur_name } : Turn) :: rest :=
  ⟨by decide, C10_sender_verbatim (constGen "x") demoState1 demoIdea "Banana" "hello" (by decide)⟩

/-- C4: within a session the transcript length is non-decreasing (no
operation removes turns), every fully successful sendMessage grows it by
exactly 1 + |panel| (one incoming turn plus one per judge), and a
successful startPitch leaves a transcript of exactly 1 + |panel| turns. -/
theorem C4_transcript_growth :
    (∀ (gen : Agent → String → Except Exn String) (message : Message) (st : AppState),
        st.conversation_history.length
          ≤ (send_message gen message st).1.conversation_history.length)
      ∧ (∀ (gen : Agent → String → Except Exn String) (message : Message) (st : AppState),
          exceptOk (send_message gen message st).2 = true →
          (send_message gen message st).1.conversation_history.length
            = st.conversation_history.length + 1 + st.judge_agents.length)
      ∧ (∀ (gen : Agent → String → Except Exn String) (request : ChatRequest) (st : AppState),
          exceptOk (start_pitch gen request st).2 = true →
          (start_pitch gen request st).1.conversation_history.length
            = 1 + (start_pitch gen request st).1.judge_agents.length) := by
  refine ⟨?_, ?_, ?_⟩
  · intro gen message st
    unfold send_message
    cases hO : st.current_business_idea with
    | none => simp
    | some idea =>
      simp only []
      split
      · simp
      · simp
  · intro gen message st h
    unfold send_message at h ⊢
    cases hO : st.current_business_idea with
    | none => rw [hO] at h; simp [exceptOk] at h
    | some idea =>
      rw [hO] at h
      simp only [] at h ⊢
      split at h
      next e heq => simp [exceptOk] at h
      next resp heq =>
        obtain ⟨-, -, hlen, -⟩ := round_ok_spec gen idea _ _ _ _ resp heq
        simp [hlen]
        omega
  · intro gen request st h
    unfold start_pitch generate_initial_pitch at h ⊢
    simp only [] at h ⊢
    split at h
    next e heq => simp [exceptOk] at h
    next pitch heq =>
      split at h
      next e heq2 => simp [exceptOk] at h
      next resp heq2 =>
        obtain ⟨-, -, hlen, -⟩ := round_ok_spec gen request.business_idea _ _ _ _ resp heq2
        simp [hlen]
        omega

/-- Witness for C4 at a concrete fully successful sendMessage and a
concrete fully successful startPitch. -/
theorem C4_witness :
    exceptOk (send_message (constGen "x") demoMessage demoState1).2 = true
      ∧ (send_message (constGen "x") demoMessage demoState1).1.conversation_history.length
        = demoState1.conversation_history.length + 1 + demoState1.judge_agents.length
      ∧ exceptOk (start_pitch (constGen "pitch") demoRequest initialState).2 = true
      ∧ (start_pitch (constGen "pitch") demoRequest initialState).1.conversation_history.length
        = 1 + (start_pitch (constGen "pitch") demoRequest initialState).1.judge_agents.length :=
  ⟨by decide,
   C4_transcript_growth.2.1 (constGen "x") demoMessage demoState1 (by decide),
   by decide,
   C4_transcript_growth.2.2 (constGen "pitch") demoRequest initialState (by decide)⟩

/-- C5: the judge invocation order in every round equals the panel input
order — on success the attributed (name, role) sequence equals the config
list in order whenever config and agents have equal length — the panel and
config are unchanged by sendMessage, and the installed default panel is
Sophia (Market Judge), Marcus (Finance Judge), Elena (Technology Judge) in
exactly that order. -/
theorem C5_panel_order_stability :
    (∀ (gen : Agent → String → Except Exn String) (message : Message) (st : AppState),
        (send_message gen message st).1.judge_agents = st.judge_agents
          ∧ (send_message gen message st).1.current_judges_config = st.current_judges_config)
      ∧ (∀ (gen : Agent → String → Except Exn String) (request : ChatRequest) (st : AppState),
          (start_pitch gen request st).1.current_judges_config
              = [⟨"Sophia", "Market Judge"⟩, ⟨"Marcus", "Finance Judge"⟩,
                 ⟨"Elena", "Technology Judge"⟩]
            ∧ (start_pitch gen request st).1.judge_agents = create_default_judge_agents)
      ∧ (∀ (gen : Agent → String → Except Exn String) (b : BusinessIdea) (conv : List Turn)
            (agents : List Agent) (config : List JudgeConfig) (hist : List CollabEntry),
          config.length = agents.length →
          exceptOk (generate_judge_responses_with_collaboration gen b conv agents config hist).2.2
            = true →
          ((generate_judge_responses_with_collaboration gen b conv agents config hist).2.2.toOption.getD
              []).map (fun r => (r.judge_name, r.judge_role))
            = config.map (fun c => (c.name, c.role)))
      ∧ create_default_judge_agents.map Agent.role
        = ["Market Judge", "Finance Judge", "Technology Judge"] := by
  refine ⟨?_, ?_, ?_, by decide⟩
  · intro gen message st
    unfold send_message
    cases hO : st.current_business_idea with
    | none => simp
    | some idea =>
      simp only []
      split
      · simp
      · simp
  · intro gen request st
    unfold start_pitch generate_initial_pitch
    simp only []
    split
    · exact ⟨rfl, rfl⟩
    · split
      · exact ⟨rfl, rfl⟩
      · exact ⟨rfl, rfl⟩
  · intro gen b conv agents config hist hlen h
    obtain ⟨resp, hresp⟩ := exceptOk_exists_ok h
    rw [hresp]
    obtain ⟨-, -, -, hattr⟩ := round_ok_spec gen b conv agents config hist resp hresp
    rw [Except.toOption, Option.getD]
    rw [hattr, roundAttribution_eq_config config agents 0 (by omega), List.drop_zero]

/-- Witness for C5 at a concrete successful round over the default panel. -/
theorem C5_witness :
    defaultJudgesConfig.length = create_default_judge_agents.length
      ∧ exceptOk (generate_judge_responses_with_collaboration (constGen "x") demoIdea []
          create_default_judge_agents defaultJudgesConfig []).2.2 = true
      ∧ ((generate_judge_responses_with_collaboration (constGen "x") demoIdea []
            create_default_judge_agents defaultJudgesConfig []).2.2.toOption.getD []).map
          (fun r => (r.judge_name, r.judge_role))
        = defaultJudgesConfig.map (fun c => (c.name, c.role)) :=
  ⟨by decide, by decide,
   C5_panel_order_stability.2.2.1 (constGen "x") demoIdea [] create_default_judge_agents
     defaultJudgesConfig [] (by decide) (by decide)⟩

theorem start_pitch_installs (gen : Agent → String → Except Exn String)
    (request : ChatRequest) (st : AppState) :
    (start_pitch gen request st).1.current_business_idea = some request.business_idea
      ∧ (start_pitch gen request st).1.entrepreneur_name = resolveEntrepreneurName request
      ∧ (start_pitch gen request st).1.judge_agents = create_default_judge_agents
      ∧ (start_pitch gen request st).1.current_judges_config = defaultJudgesConfig := by
  unfold start_pitch generate_initial_pitch
  simp only []
  split
  · exact ⟨rfl, rfl, rfl, rfl⟩
  · split
    · exact ⟨rfl, rfl, rfl, rfl⟩
    · exact ⟨rfl, rfl, rfl, rfl⟩

theorem send_message_okGen (gen : Agent → String → Except Exn String) (hgen : OkGen gen)
    (message : Message) (st : AppState) (idea : BusinessIdea)
    (hidea : st.current_business_idea = some idea)
    (hA : st.judge_agents.isEmpty = false) :
    exceptOk (send_message gen message st).2 = true := by
  unfold send_message
  rw [hidea]
  simp only []
  split
  next e heq =>
    have hok := round_okGen gen hgen idea
      (st.conversation_history
        ++ [{ role := message.sender, content := message.content
              sender_name := some st.entrepreneur_name }])
      st.judge_agents st.current_judges_config st.judge_collaboration_history hA
    rw [heq] at hok
    simp [exceptOk] at hok
  next resp heq => rfl

/-- C9: startPitch clears the previous session and installs the new
business idea, entrepreneur name and judge panel before any generation
call; consequently a generation failure does not restore the previous
session — the state stays active on the new business idea with an
at-most-one-turn partial transcript — and a subsequent sendMessage against
that partial session succeeds whenever the backend succeeds. -/
theorem C9_install_before_generation :
    (∀ (gen : Agent → String → Except Exn String) (request : ChatRequest) (st : AppState),
        (start_pitch gen request st).1.current_business_idea = some request.business_idea
          ∧ (start_pitch gen request st).1.entrepreneur_name = resolveEntrepreneurName request
          ∧ (start_pitch gen request st).1.judge_agents = create_default_judge_agents
          ∧ (start_pitch gen request st).1.current_judges_config = defaultJudgesConfig)
      ∧ (∀ (gen : Agent → String → Except Exn String) (request : ChatRequest) (st : AppState),
          exceptOk (start_pitch gen request st).2 = false →
          (start_pitch gen request st).1.conversation_history.length ≤ 1)
      ∧ (∀ (gen gen2 : Agent → String → Except Exn String) (request : ChatRequest)
            (st : AppState) (message : Message),
          OkGen gen2 →
          exceptOk (send_message gen2 message (start_pitch gen request st).1).2 = true) := by
  refine ⟨start_pitch_installs, ?_, ?_⟩
  · intro gen request st h
    unfold start_pitch generate_initial_pitch at h ⊢
    simp only [] at h ⊢
    split at h
    next e heq => simp
    next pitch heq =>
      split at h
      next e heq2 => simp
      next resp heq2 => simp [exceptOk] at h
  · intro gen gen2 request st message hgen
    obtain ⟨h1, -, h3, -⟩ := start_pitch_installs gen request st
    refine send_message_okGen gen2 hgen message _ request.business_idea h1 ?_
    rw [h3]
    rfl

/-- Witness for C9: a startPitch whose first generation call fails leaves
an active partial session against which a sendMessage then succeeds. -/
theorem C9_witness :
    exceptOk (start_pitch failGen demoRequest initialState).2 = false
      ∧ (start_pitch failGen demoRequest initialState).1.conversation_history.length ≤ 1
      ∧ OkGen (constGen "x")
      ∧ exceptOk (send_message (constGen "x") demoMessage
          (start_pitch failGen demoRequest initialState).1).2 = true :=
  ⟨by decide,
   C9_install_before_generation.2.1 failGen demoRequest initialState (by decide),
   fun _ _ => rfl,
   C9_install_before_generation.2.2 failGen (constGen "x") demoRequest initialState demoMessage
     (fun _ _ => rfl)⟩

/-- C2 amended: the six-entry cap applies to the rendered collaboration
window, not to the stored history — the rendered collaboration context is
a function of the last-6 slice alone, that slice never exceeds 6 entries,
while the stored collaboration history itself grows by one entry per judge
(|panel| per fully successful sendMessage) without bound. -/
theorem C2_rendered_window_capped :
    (∀ hist : List CollabEntry, (lastSix hist).length ≤ 6)
      ∧ (∀ hist : List CollabEntry,
          renderCollaborationContext hist = renderCollaborationContext (lastSix hist))
      ∧ (∀ (gen : Agent → String → Except Exn String) (message : Message) (st : AppState),
          exceptOk (send_message gen message st).2 = true →
          (send_message gen message st).1.judge_collaboration_history.length
            = st.judge_collaboration_history.length + st.judge_agents.length) := by
  refine ⟨lastSix_length_le, fun hist => (renderCollaborationContext_lastSix hist).symm, ?_⟩
  intro gen message st h
  unfold send_message at h ⊢
  cases hO : st.current_business_idea with
  | none => rw [hO] at h; simp [exceptOk] at h
  | some idea =>
    rw [hO] at h
    simp only [] at h ⊢
    split at h
    next e heq => simp [exceptOk] at h
    next resp heq =>
      obtain ⟨-, hcollab, hlen, -⟩ := round_ok_spec gen idea _ _ _ _ resp heq
      simp only [hcollab, List.length_append, List.length_map]
      omega

/-- C2 counterexample: after one startPitch and two sendMessage rounds
with the default 3-judge panel, the stored collaboration window holds 9
entries — it is not capped at 6. -/
theorem C2_counterexample_nine_entries :
    demoState3.judge_collaboration_history.length = 9
      ∧ ¬ demoState3.judge_collaboration_history.length ≤ 6 :=
  ⟨by decide, by decide⟩

/-- Witness for C2 at a concrete successful sendMessage round. -/
theorem C2_witness :
    exceptOk (send_message (constGen "x") demoMessage demoState1).2 = true
      ∧ (send_message (constGen "x") demoMessage demoState1).1.judge_collaboration_history.length
        = demoState1.judge_collaboration_history.length + demoState1.judge_agents.length :=
  ⟨by decide, C2_rendered_window_capped.2.2 (constGen "x") demoMessage demoState1 (by decide)⟩

/-- C3 amended: if a backend call fails during the judge round of a
sendMessage, the call fails with the propagated error wrapped as HTTP 500
(no retry), the remaining judges are skipped, and the transcript keeps
exactly the turns appended before the round — the prior transcript plus
the incoming message turn; outputs of judges that succeeded earlier in the
same round are not appended to the transcript, surviving only as
collaboration-history entries. -/
theorem C3_failed_round_keeps_preround_turns (gen : Agent → String → Except Exn String)
    (message : Message) (st : AppState) (idea : BusinessIdea)
    (hidea : st.current_business_idea = some idea)
    (h : exceptOk (send_message gen message st).2 = false) :
    (send_message gen message st).1.conversation_history
        = st.conversation_history
          ++ [{ role := message.sender, content := message.content
                sender_name := some st.entrepreneur_name }]
      ∧ (∃ tail, (send_message gen message st).1.judge_collaboration_history
          = st.judge_collaboration_history ++ tail)
      ∧ (∃ m, (send_message gen message st).2
          = .error (.http 500 ("Error sending message: " ++ m))) := by
  unfold send_message at h ⊢
  rw [hidea] at h ⊢
  simp only [] at h ⊢
  split at h
  next e heq =>
    obtain ⟨tail, htail⟩ := round_collab_extends gen idea
      (st.conversation_history
        ++ [{ role := message.sender, content := message.content
              sender_name := some st.entrepreneur_name }])
      st.judge_agents st.current_judges_config st.judge_collaboration_history
    exact ⟨rfl, ⟨tail, htail⟩, ⟨e.message, rfl⟩⟩
  next resp heq => simp [exceptOk] at h

/-- C3 counterexample: a concrete failing round in which the first judge
succeeded; its output reaches only the collaboration history, not the
transcript, which gains exactly the incoming user turn. -/
theorem C3_counterexample_partial_round :
    failFinanceRun.2 = .error (.http 500 "Error sending message: backend failure")
      ∧ failFinanceRun.1.conversation_history
        = demoState1.conversation_history
          ++ [{ role := "Entrepreneur", content := "We have 3 LOIs signed"
                sender_name := some "Jane" }]
      ∧ (failFinanceRun.1.conversation_history.map Turn.content).contains "SOPHIAOUT" = false
      ∧ (failFinanceRun.1.judge_collaboration_history.map CollabEntry.content).contains "SOPHIAOUT"
        = true :=
  ⟨by decide, by decide, by decide, by decide⟩

/-- Witness for C3 at the concrete failing round. -/
theorem C3_witness :
    demoState1.current_business_idea = some demoIdea
      ∧ exceptOk (send_message failFinanceGen demoMessage demoState1).2 = false
      ∧ (send_message failFinanceGen demoMessage demoState1).1.conversation_history
          = demoState1.conversation_history
            ++ [{ role := demoMessage.sender, content := demoMessage.content
                  sender_name := some demoState1.entrepreneur_name }]
      ∧ (∃ tail, (send_message failFinanceGen demoMessage demoState1).1.judge_collaboration_history
          = demoState1.judge_collaboration_history ++ tail)
      ∧ (∃ m, (send_message failFinanceGen demoMessage demoState1).2
          = .error (.http 500 ("Error sending message: " ++ m))) :=
  ⟨by decide, by decide,
   (C3_failed_round_keeps_preround_turns failFinanceGen demoMessage demoState1 demoIdea
      (by decide) (by decide)).1,
   (C3_failed_round_keeps_preround_turns failFinanceGen demoMessage demoState1 demoIdea
      (by decide) (by decide)).2.1,
   (C3_failed_round_keeps_preround_turns failFinanceGen demoMessage demoState1 demoIdea
      (by decide) (by decide)).2.2⟩

/-- C1 amended: judges are invoked strictly sequentially in panel order
and each output is appended to the collaboration history before the next
judge is invoked, but every task description of a round is rendered from
the conversation context and the collaboration context as they stood when
the round began (both are computed once, before the first judge): on
success the issued descriptions equal the closed form `roundDescriptions`
over the pre-round renderings — independent of any same-round output — and
the final collaboration history is the pre-round history extended by the
round outputs, which therefore become visible only from the next round on. -/
theorem C1_prompts_fixed_at_round_start (gen : Agent → String → Except Exn String)
    (b : BusinessIdea) (conv : List Turn) (agents : List Agent)
    (config : List JudgeConfig) (hist : List CollabEntry)
    (h : exceptOk (generate_judge_responses_with_collaboration gen b conv agents config hist).2.2
      = true) :
    (generate_judge_responses_with_collaboration gen b conv agents config hist).2.1
        = roundDescriptions b (renderConversation conv) (renderCollaborationContext hist)
            config agents 0
      ∧ (generate_judge_responses_with_collaboration gen b conv agents config hist).1
        = hist
          ++ ((generate_judge_responses_with_collaboration gen b conv agents
                config hist).2.2.toOption.getD []).map
              (fun r => (⟨r.judge_name, r.content⟩ : CollabEntry)) := by
  obtain ⟨resp, hresp⟩ := exceptOk_exists_ok h
  obtain ⟨hprompts, hcollab, -, -⟩ := round_ok_spec gen b conv agents config hist resp hresp
  refine ⟨hprompts, ?_⟩
  rw [hresp, hcollab]
  simp [Except.toOption]

set_option maxRecDepth 8000 in
/-- C1 counterexample: in a concrete round over the default 3-judge panel,
judge 1 (Sophia) succeeds with output "ZQMARKER", yet the task description
issued to judge 2 (Marcus) does not contain that output as a substring —
so a later judge of the same round does not see an earlier judge's output. -/
theorem C1_counterexample_prompt_lacks_prior_output :
    (markerRun.2.2.toOption.getD []).map JudgeResponse.content = ["ZQMARKER", "other", "other"]
      ∧ markerRun.2.1.length = 3
      ∧ strHasSub (markerRun.2.1.getD 1 "") "ZQMARKER" = false :=
  ⟨by decide, by decide, by decide⟩

/-- Witness for C1 at a concrete successful round. -/
theorem C1_witness :
    exceptOk (generate_judge_responses_with_collaboration (constGen "out") demoIdea []
        create_default_judge_agents defaultJudgesConfig []).2.2 = true
      ∧ (generate_judge_responses_with_collaboration (constGen "out") demoIdea []
          create_default_judge_agents defaultJudgesConfig []).2.1
        = roundDescriptions demoIdea (renderConversation []) (renderCollaborationContext [])
            defaultJudgesConfig create_default_judge_agents 0
      ∧ (generate_judge_responses_with_collaboration (constGen "out") demoIdea []
          create_default_judge_agents defaultJudgesConfig []).1
        = []
          ++ ((generate_judge_responses_with_collaboration (constGen "out") demoIdea []
                create_default_judge_agents defaultJudgesConfig []).2.2.toOption.getD []).map
              (fun r => (⟨r.judge_name, r.content⟩ : CollabEntry)) :=
  ⟨by decide,
   (C1_prompts_fixed_at_round_start (constGen "out") demoIdea [] create_default_judge_agents
      defaultJudgesConfig [] (by decide)).1,
   (C1_prompts_fixed_at_round_start (constGen "out") demoIdea [] create_default_judge_agents
      defaultJudgesConfig [] (by decide)).2⟩

/-- C8 amended: the only session-start validation of the BusinessIdea is
presence and string type of the seven fields — a request missing a field
fails with a validation error before the handler runs, so no partial
session is created — while the empty string is accepted for every field
and startPitch proceeds normally. -/
theorem C8_presence_validation_only :
    (∀ (gen : Agent → String → Except Exn String) (raw : RawBusinessIdea)
        (raw_name : Option String) (st : AppState) (e : Exn),
        validateBusinessIdea raw = .error e →
        start_pitch_endpoint gen raw raw_name st = (st, .error e)
          ∧ e = .http 422 "field required")
      ∧ (∀ n d t r c i u : String,
          validateBusinessIdea
              { name := some n, description := some d, target_market := some t
                revenue_model := some r, current_traction := some c
                investment_needed := some i, use_of_funds := some u }
            = .ok { name := n, description := d, target_market := t, revenue_model := r
                    current_traction := c, investment_needed := i, use_of_funds := u }) := by
  constructor
  · intro gen raw raw_name st e h
    constructor
    · unfold start_pitch_endpoint
      rw [h]
    · unfold validateBusinessIdea at h
      split at h
      · simp at h
      · injection h with h'
        exact h'.symm
  · intro n d t r c i u
    rfl

/-- C8 counterexample: a BusinessIdea whose seven fields are all the empty
string passes validation and startPitch creates a session around it — no
ValidationError is raised for empty fields. -/
theorem C8_counterexample_empty_fields_session_created :
    validateBusinessIdea rawEmptyFields
        = .ok { name := "", description := "", target_market := "", revenue_model := ""
                current_traction := "", investment_needed := "", use_of_funds := "" }
      ∧ exceptOk emptyFieldsRun.2 = true
      ∧ emptyFieldsRun.1.current_business_idea
        = some { name := "", description := "", target_market := "", revenue_model := ""
                 current_traction := "", investment_needed := "", use_of_funds := "" } :=
  ⟨rfl, by decide, by decide⟩

/-- Witness for C8: a request missing every field is rejected with the
validation error and leaves the state untouched. -/
theorem C8_witness :
    validateBusinessIdea rawMissingFields = .error (.http 422 "field required")
      ∧ start_pitch_endpoint (constGen "x") rawMissingFields (some "Jane") initialState
        = (initialState, .error (.http 422 "field required")) :=
  ⟨rfl,
   (C8_presence_validation_only.1 (constGen "x") rawMissingFields (some "Jane") initialState
      (.http 422 "field required") rfl).1⟩

end SharkTank
